import Mathlib

/-!
Shallow embedding of `pybryt/student.py` (the orchestration core of PyBryt):
the Submission Artifact (`StudentImplementation`), the Checking Dispatcher
(`StudentImplementation.check`), serialization (`dump`/`dumps`/`load`/`loads`),
the Plagiarism Orchestrator (`check_plagiarism`), and the inline checking
protocol (the module-level `check` context manager, embedded as `withCheck`).

Opaque external data is kept as type parameters: `V` is the type of captured
values (the Execution Engine's opaque snapshots), `N` is the type of notebook
documents (`nbformat.NotebookNode`), `R` is the type of reference results
(`ReferenceResult`), and option bags (`**kwargs`) are a type parameter `O`.
-/

namespace PyBryt

/-- Python exceptions raised by the code under study. `blockError` stands for
an arbitrary exception raised by the user block wrapped by the inline
checking protocol. -/
inductive PyErr where
  | typeError (msg : String)
  | valueError (msg : String)
  | runtimeError (msg : String)
  | indexError (msg : String)
  | blockError
  deriving DecidableEq

/-- External entity (from `pybryt.reference`, not under `src/`): a reference
implementation is consumed through its `run(footprint, group) -> Result`
method only.  Modelled from the spec: matching is a deterministic function of
the footprint and the optional group token. -/
structure ReferenceImplementation (V R : Type) where
  run : List (V × Nat) → Option String → R

/-- `StudentImplementation`: owns a memory footprint `values` (a list of
(value, timestamp) pairs), a step count `steps`, and optional source metadata
`nb` / `nb_path` (lines 31-41 of `student.py`). -/
structure StudentImplementation (V N : Type) where
  nb : Option N
  nb_path : Option String
  values : List (V × Nat)
  steps : Nat

/-- `StudentImplementation.from_footprint` (lines 75-82): calls `cls(None)`
(which sets `nb = None`, `nb_path = None` and returns immediately), then
stores `steps` and `values` verbatim — no validation. -/
def StudentImplementation.from_footprint {V N : Type} (footprint : List (V × Nat))
    (steps : Nat) : StudentImplementation V N :=
  { nb := none, nb_path := none, values := footprint, steps := steps }

/-- The duck-typed argument of the Checking Dispatcher
`StudentImplementation.check` (line 134): a single `ReferenceImplementation`,
a list of them, or a value of any other type (carried here as the name of
that type, used in the error message). -/
inductive CheckArg (V R : Type) where
  | ref (r : ReferenceImplementation V R)
  | list (rs : List (ReferenceImplementation V R))
  | other (tyname : String)

/-- The dispatcher's return shape: a bare result for a scalar reference, an
ordered list of results for a list of references. -/
inductive CheckResult (R : Type) where
  | single (r : R)
  | list (rs : List R)

/-- `StudentImplementation.check` (lines 134-155): `isinstance` dispatch on
the shape of `ref`; a scalar reference is run once, a list is run
element-wise in order over the same footprint and group, anything else
raises `TypeError`. -/
def StudentImplementation.check {V N R : Type} (stu : StudentImplementation V N)
    (ref : CheckArg V R) (group : Option String) :
    Except PyErr (CheckResult R) :=
  match ref with
  | CheckArg.ref r => Except.ok (CheckResult.single (r.run stu.values group))
  | CheckArg.list rs => Except.ok (CheckResult.list (rs.map (fun r => r.run stu.values group)))
  | CheckArg.other tyname =>
      Except.error (PyErr.typeError ("check cannot take values of type " ++ tyname))

/-! ### Serialization (lines 84-132)

`dill` (generic binary serialization) and the base-64 transport encoding are
external collaborators, excluded from this core by the spec.  Modelled from
the spec: each is an encoder/decoder pair over an opaque envelope type; the
round-trip law of the external serializer is taken as a hypothesis of the
round-trip theorem. -/

/-- An external encoder/decoder pair (a model of `dill.dumps`/`dill.loads`
over an envelope type `β`, and of `base64.b64encode`/`b64decode`). -/
structure Codec (α β : Type) where
  enc : α → β
  dec : β → Option α

/-- `StudentImplementation.dump` (lines 84-92): writes `dill.dump(self)` to
the destination file; the bytes written are the returned envelope. -/
def StudentImplementation.dump {V N E : Type} (dill : Codec (StudentImplementation V N) E)
    (stu : StudentImplementation V N) : E :=
  dill.enc stu

/-- `StudentImplementation.load` (lines 104-118): reads the file and returns
`dill.load(f)`; no notebook execution is involved. -/
def StudentImplementation.load {V N E : Type} (dill : Codec (StudentImplementation V N) E)
    (file : E) : Option (StudentImplementation V N) :=
  dill.dec file

/-- `StudentImplementation.dumps` (lines 94-102):
`base64.b64encode(dill.dumps(self)).decode("ascii")`. -/
def StudentImplementation.dumps {V N E S : Type} (dill : Codec (StudentImplementation V N) E)
    (b64 : Codec E S) (stu : StudentImplementation V N) : S :=
  b64.enc (dill.enc stu)

/-- `StudentImplementation.loads` (lines 120-132):
`dill.loads(base64.b64decode(data))`; decode failures propagate as-is. -/
def StudentImplementation.loads {V N E S : Type} (dill : Codec (StudentImplementation V N) E)
    (b64 : Codec E S) (data : S) : Option (StudentImplementation V N) :=
  (b64.dec data).bind dill.dec

/-! ### Plagiarism Orchestrator (lines 157-177, 213)

`create_references` and `get_impl_results` live in `pybryt.plagiarism`, which
is not under `src/`; they are modelled from the spec (sections 4.3 and 6),
parametrized by the external synthesizer and comparator. -/

/-- Modelled from the spec: `create_references(list_of_artifacts, **options)`
(the Reference Synthesizer) synthesizes exactly one reference implementation
per input artifact, forwarding the options. -/
def create_references {V N R O : Type}
    (synth : StudentImplementation V N → O → ReferenceImplementation V R)
    (impls : List (StudentImplementation V N)) (opts : O) :
    List (ReferenceImplementation V R) :=
  impls.map (fun s => synth s opts)

/-- Modelled from the spec: `get_impl_results(reference, peer_artifacts,
**options)` (the Peer Comparator) returns one result per peer artifact, in
order, comparing each against the given reference with the given options. -/
def get_impl_results {V N R O : Type}
    (compare : ReferenceImplementation V R → StudentImplementation V N → O → R)
    (ref : ReferenceImplementation V R) (impls : List (StudentImplementation V N))
    (opts : O) : List R :=
  impls.map (fun s => compare ref s opts)

/-- `StudentImplementation.check_plagiarism` (lines 157-177):
`refs = create_references([self], **kwargs); return get_impl_results(refs[0],
student_impls, **kwargs)`.  The Python indexing `refs[0]` raises `IndexError`
when the synthesizer returns no references. -/
def StudentImplementation.check_plagiarism {V N R O : Type}
    (synth : StudentImplementation V N → O → ReferenceImplementation V R)
    (compare : ReferenceImplementation V R → StudentImplementation V N → O → R)
    (stu : StudentImplementation V N) (student_impls : List (StudentImplementation V N))
    (opts : O) : Except PyErr (List R) :=
  let refs := create_references synth [stu] opts
  match refs[0]? with
  | some r => Except.ok (get_impl_results compare r student_impls opts)
  | none => Except.error (PyErr.indexError "list index out of range")

/-! ### Inline Checking Protocol (lines 180-210)

The module-level `check` is a `@contextmanager` generator.  `withCheck` below
embeds the complete semantics of `with check(ref, ...): body` — the generator
code together with `contextlib`'s `__enter__`/`__exit__` protocol — as one
function from the tracing state to the final tracing state plus either a
normal outcome (the ephemeral artifact and its results, which line 210
prints) or the exception that propagates to the caller. -/

/-- The duck-typed `ref` argument of the inline `check`: a string, a scalar
`ReferenceImplementation`, a list (whose elements are strings, references or
anything else), or a scalar of any other type. -/
inductive RefArgElem (V R : Type) where
  | str (s : String)
  | refImpl (r : ReferenceImplementation V R)
  | other

/-- Top-level shape of the inline `check`'s `ref` argument. -/
inductive RefArg (V R : Type) where
  | str (s : String)
  | refImpl (r : ReferenceImplementation V R)
  | list (xs : List (RefArgElem V R))
  | other

/-- Whether a list element is a `ReferenceImplementation`
(`isinstance(r, ReferenceImplementation)`). -/
def RefArgElem.isRefImpl {V R : Type} : RefArgElem V R → Bool
  | RefArgElem.refImpl _ => true
  | _ => false

/-- Whether a list element is a string (`isinstance(r, str)`). -/
def RefArgElem.isStr {V R : Type} : RefArgElem V R → Bool
  | RefArgElem.str _ => true
  | _ => false

/-- Lines 187-188: `if isinstance(ref, str): ref =
[ReferenceImplementation.load(ref)]`.  `ReferenceImplementation.load` is
external (module `pybryt.reference`, not under `src/`); it is passed in as
the function `load`. -/
def resolveStr {V R : Type} (load : String → ReferenceImplementation V R) :
    RefArg V R → RefArg V R
  | RefArg.str s => RefArg.list [RefArgElem.refImpl (load s)]
  | r => r

/-- Lines 189-195: if `ref` is a list, an empty list raises `ValueError`; a
list that is not all references and not all strings raises `TypeError`; an
all-strings list is replaced by the loaded references.  Non-lists pass
through untouched. -/
def resolveList {V R : Type} (load : String → ReferenceImplementation V R) :
    RefArg V R → Except PyErr (RefArg V R)
  | RefArg.list xs =>
      if xs.length = 0 then
        Except.error (PyErr.valueError "Cannot check against an empty list of references")
      else if xs.all RefArgElem.isRefImpl then
        Except.ok (RefArg.list xs)
      else if xs.all RefArgElem.isStr then
        Except.ok (RefArg.list (xs.map (fun x =>
          match x with
          | RefArgElem.str s => RefArgElem.refImpl (load s)
          | y => y)))
      else
        Except.error (PyErr.typeError "Invalid values in the reference list")
  | r => Except.ok r

/-- Lines 196-197: `if not all(isinstance(r, ReferenceImplementation) for r
in ref): raise TypeError(...)`.  Iterating a non-iterable scalar raises
`TypeError` at the `all(...)` itself; modelled from the spec, a scalar
`ReferenceImplementation` is such a non-iterable external object (nothing in
the spec's consumed interface makes it iterable), as is any `other` scalar.
A string is iterable (over characters, none of which is a reference), so a
scalar string reaching this point fails the `all` check instead; either way
a `TypeError` is raised. -/
def extractRefs {V R : Type} : RefArg V R → Except PyErr (List (ReferenceImplementation V R))
  | RefArg.list xs =>
      if xs.all RefArgElem.isRefImpl then
        Except.ok (xs.filterMap (fun x =>
          match x with
          | RefArgElem.refImpl r => some r
          | _ => none))
      else
        Except.error (PyErr.typeError "Invalid values provided for reference(s)")
  | RefArg.str _ => Except.error (PyErr.typeError "Invalid values provided for reference(s)")
  | RefArg.refImpl _ => Except.error (PyErr.typeError "object is not iterable")
  | RefArg.other => Except.error (PyErr.typeError "object is not iterable")

/-- Lines 187-197 as one normalization step: the value bound to `ref` when
control reaches line 199, or the exception raised during validation. -/
def validateRef {V R : Type} (load : String → ReferenceImplementation V R)
    (ref : RefArg V R) : Except PyErr (List (ReferenceImplementation V R)) :=
  (resolveList load (resolveStr load ref)).bind extractRefs

/-- Process-wide tracing state (the Execution Engine's ambient state, spec
section 5), plus event counters that record how many times
`create_collector`, `tracing_on` and `tracing_off` have been invoked.
`active` is the content accumulated so far by the currently installed
collector. -/
structure TraceState (V : Type) where
  tracing : Bool
  active : List (V × Nat)
  collectorsCreated : Nat
  tracingOnCalls : Nat
  tracingOffCalls : Nat
  deriving DecidableEq

/-- The user block wrapped by `with check(...)`: the observations it emits
while a collector is installed, and whether it raises an exception (after
emitting them). -/
structure Block (V : Type) where
  obs : List (V × Nat)
  raises : Bool

/-- Line 208: `max(t[1] for t in observed)` — Python's `max` over the
timestamps, which raises `ValueError` on an empty footprint. -/
def maxTimestamp {V : Type} (observed : List (V × Nat)) : Except PyErr Nat :=
  match observed.map Prod.snd with
  | [] => Except.error (PyErr.valueError "max arg is an empty sequence")
  | t :: ts => Except.ok (ts.foldl max t)

/-- Semantics of `with check(ref, **kwargs): body` (lines 180-210 plus the
`contextlib` protocol).

* If tracing is already active (line 184), the generator suspends at the
  line-185 `yield`, so the block runs under the outer collector.  On exit the
  generator is resumed and — the `if` body having no `return`/`else` — falls
  through to lines 187-210: it validates `ref`, creates a fresh collector
  (line 199), calls `tracing_on` again (line 202, installing the fresh
  collector as the single active one), and then hits the second `yield`
  (line 204), at which point `contextlib` raises
  `RuntimeError("generator did not stop")`.
* Otherwise validation runs inside `__enter__`, before the block; a
  validation error propagates with no collector created.  On success a fresh
  collector is installed and the block runs under it.  If the block raises,
  the exception is thrown into the generator at the line-204 `yield`; with no
  `try`/`finally`, `tracing_off` (line 206) never runs and tracing stays
  active.  On normal completion `tracing_off` runs, the step count is
  computed by `maxTimestamp` (line 208, `ValueError` when nothing was
  observed), the ephemeral artifact is built by `from_footprint` and
  dispatched through `StudentImplementation.check` (line 209), and the
  results (whose messages line 210 prints) are returned. -/
def withCheck {V N R : Type} (load : String → ReferenceImplementation V R)
    (ref : RefArg V R) (body : Block V) (s : TraceState V) :
    TraceState V × Except PyErr (Option (StudentImplementation V N × List R)) :=
  if s.tracing then
    let s1 : TraceState V := { s with active := s.active ++ body.obs }
    if body.raises then
      (s1, Except.error PyErr.blockError)
    else
      match validateRef load ref with
      | Except.error e => (s1, Except.error e)
      | Except.ok _ =>
          let s2 : TraceState V :=
            { s1 with collectorsCreated := s1.collectorsCreated + 1
                      tracingOnCalls := s1.tracingOnCalls + 1
                      tracing := true
                      active := [] }
          (s2, Except.error (PyErr.runtimeError "generator did not stop"))
  else
    match validateRef load ref with
    | Except.error e => (s, Except.error e)
    | Except.ok refs =>
        let s2 : TraceState V :=
          { s with collectorsCreated := s.collectorsCreated + 1
                   tracingOnCalls := s.tracingOnCalls + 1
                   tracing := true
                   active := [] }
        let s3 : TraceState V := { s2 with active := s2.active ++ body.obs }
        if body.raises then
          (s3, Except.error PyErr.blockError)
        else
          let s4 : TraceState V :=
            { s3 with tracing := false, tracingOffCalls := s3.tracingOffCalls + 1 }
          match maxTimestamp s3.active with
          | Except.error e => (s4, Except.error e)
          | Except.ok m =>
              let stu : StudentImplementation V N :=
                StudentImplementation.from_footprint s3.active m
              match stu.check (CheckArg.list refs) none with
              | Except.ok (CheckResult.list res) => (s4, Except.ok (some (stu, res)))
              | _ => (s4, Except.error (PyErr.runtimeError "unreachable"))

/-! ### State-threading view of the read-only operations

The bodies of `StudentImplementation.check`, `dump` and `dumps` contain no
assignment to `self`; threading the receiver through each method makes that
explicit: each returns the receiver exactly as it was given. -/

/-- `StudentImplementation.check` with the receiver threaded through. -/
def StudentImplementation.checkSt {V N R : Type} (stu : StudentImplementation V N)
    (ref : CheckArg V R) (group : Option String) :
    StudentImplementation V N × Except PyErr (CheckResult R) :=
  match ref with
  | CheckArg.ref r => (stu, Except.ok (CheckResult.single (r.run stu.values group)))
  | CheckArg.list rs =>
      (stu, Except.ok (CheckResult.list (rs.map (fun r => r.run stu.values group))))
  | CheckArg.other tyname =>
      (stu, Except.error (PyErr.typeError ("check cannot take values of type " ++ tyname)))

/-- `StudentImplementation.dump` with the receiver threaded through. -/
def StudentImplementation.dumpSt {V N E : Type} (dill : Codec (StudentImplementation V N) E)
    (stu : StudentImplementation V N) : StudentImplementation V N × E :=
  (stu, dill.enc stu)

/-- `StudentImplementation.dumps` with the receiver threaded through. -/
def StudentImplementation.dumpsSt {V N E S : Type} (dill : Codec (StudentImplementation V N) E)
    (b64 : Codec E S) (stu : StudentImplementation V N) : StudentImplementation V N × S :=
  (stu, b64.enc (dill.enc stu))

/-! ### Concrete fixtures for closed theorems -/

/-- A concrete reference implementation over `Nat` values whose result is
the footprint length. -/
def refLen : ReferenceImplementation Nat Nat :=
  { run := fun vals _ => vals.length }

/-- A concrete loader resolving every identifier to `refLen`. -/
def load0 : String → ReferenceImplementation Nat Nat :=
  fun _ => refLen

/-- A concrete submission artifact built by direct footprint injection. -/
def stu0 : StudentImplementation Nat Unit :=
  StudentImplementation.from_footprint [(3, 1)] 1

/-- The identity codec on concrete artifacts (a lawful stand-in for the
external serializer in witness instantiations). -/
def idCodecStu : Codec (StudentImplementation Nat Unit) (StudentImplementation Nat Unit) :=
  { enc := fun a => a, dec := fun a => some a }

/-! ### Helper lemmas about `List.foldl max` (the shape of line 208) -/

/-- The seed is bounded by a left `max`-fold started at it. -/
theorem le_foldl_max (a : Nat) (l : List Nat) : a ≤ l.foldl max a := by
  induction l generalizing a with
  | nil => exact Nat.le_refl a
  | cons b l ih => exact Nat.le_trans (Nat.le_max_left a b) (ih (max a b))

/-- Every member is bounded by a left `max`-fold over the list. -/
theorem foldl_max_le_of_mem (a x : Nat) (l : List Nat) (h : x ∈ l) :
    x ≤ l.foldl max a := by
  induction l generalizing a with
  | nil => cases h
  | cons b l ih =>
    rcases List.mem_cons.mp h with h | h
    · subst h
      exact Nat.le_trans (Nat.le_max_right a x) (le_foldl_max (max a x) l)
    · exact ih (max a b) h

/-- A left `max`-fold is attained at the seed or at some member. -/
theorem foldl_max_mem (a : Nat) (l : List Nat) : l.foldl max a ∈ a :: l := by
  induction l generalizing a with
  | nil => simp
  | cons b l ih =>
    show List.foldl max (max a b) l ∈ a :: b :: l
    rcases List.mem_cons.mp (ih (max a b)) with h | h
    · rw [h]
      rcases max_choice a b with hab | hab
      · rw [hab]; exact List.mem_cons_self _ _
      · rw [hab]; exact List.mem_cons_of_mem _ (List.mem_cons_self _ _)
    · exact List.mem_cons_of_mem _ (List.mem_cons_of_mem _ h)

/-! ### Claim theorems -/

/-- C1 (counterexample): in the inline checking protocol, when the block
completes with an empty collected footprint, the code does NOT build an
ephemeral artifact with step count 0 — line 208's `max` over the empty
sequence of timestamps raises `ValueError`, so no artifact is built at
all. -/
theorem inline_empty_footprint_raises :
    withCheck (N := Unit) load0 (RefArg.list [RefArgElem.refImpl refLen])
        ⟨[], false⟩ ⟨false, [], 0, 0, 0⟩
      = (⟨false, [], 1, 1, 1⟩,
         Except.error (PyErr.valueError "max arg is an empty sequence")) := rfl

/-- C1 (amended): in the inline checking protocol, entered while tracing is
off, with a `ref` that validates and a block that completes normally: if at
least one observation was collected, the ephemeral artifact's step count is
the maximum timestamp over the collected footprint (it is a member of the
timestamps and bounds every timestamp); if no observation was collected, the
protocol raises `ValueError` (from `max` over an empty sequence) instead of
building a 0-step artifact. -/
theorem inline_steps_eq_max_timestamp (V N R : Type)
    (load : String → ReferenceImplementation V R) (ref : RefArg V R)
    (refs : List (ReferenceImplementation V R))
    (hv : validateRef load ref = Except.ok refs)
    (v : V) (t : Nat) (obs : List (V × Nat)) (fp : List (V × Nat)) (c n f : Nat) :
    (withCheck (N := N) load ref ⟨(v, t) :: obs, false⟩ ⟨false, fp, c, n, f⟩
        = (⟨false, (v, t) :: obs, c + 1, n + 1, f + 1⟩,
           Except.ok (some
             (StudentImplementation.from_footprint ((v, t) :: obs)
               ((obs.map Prod.snd).foldl max t),
              refs.map (fun r => r.run ((v, t) :: obs) none))))
      ∧ (obs.map Prod.snd).foldl max t ∈ ((v, t) :: obs).map Prod.snd
      ∧ ∀ p ∈ (v, t) :: obs, p.2 ≤ (obs.map Prod.snd).foldl max t)
    ∧ withCheck (N := N) load ref ⟨[], false⟩ ⟨false, fp, c, n, f⟩
        = (⟨false, [], c + 1, n + 1, f + 1⟩,
           Except.error (PyErr.valueError "max arg is an empty sequence")) := by
  refine ⟨⟨?_, ?_, ?_⟩, ?_⟩
  · unfold withCheck
    rw [hv]
    rfl
  · simpa using foldl_max_mem t (obs.map Prod.snd)
  · intro p hp
    rcases List.mem_cons.mp hp with hp | hp
    · rw [hp]
      exact le_foldl_max t (obs.map Prod.snd)
    · exact foldl_max_le_of_mem t p.2 (obs.map Prod.snd)
        (List.mem_map_of_mem Prod.snd hp)
  · unfold withCheck
    rw [hv]
    rfl

/-- C1 (witness): the amended theorem instantiated at a concrete run whose
block emits observations at timestamps 2 and 1 — the ephemeral artifact has
step count 2 — and at a concrete run with no observations, which raises
`ValueError`. -/
theorem inline_steps_eq_max_timestamp_witness :
    (withCheck (N := Unit) load0 (RefArg.list [RefArgElem.refImpl refLen])
        ⟨(9, 2) :: [(4, 1)], false⟩ ⟨false, [], 0, 0, 0⟩
        = (⟨false, (9, 2) :: [(4, 1)], 0 + 1, 0 + 1, 0 + 1⟩,
           Except.ok (some
             (StudentImplementation.from_footprint ((9, 2) :: [(4, 1)])
               (([(4, 1)].map Prod.snd).foldl max 2),
              [refLen].map (fun r => r.run ((9, 2) :: [(4, 1)]) none))))
      ∧ ([(4, 1)].map Prod.snd).foldl max 2 ∈ ((9, 2) :: [(4, 1)]).map Prod.snd
      ∧ ∀ p ∈ (9, 2) :: [(4, 1)], p.2 ≤ ([(4, 1)].map Prod.snd).foldl max 2)
    ∧ withCheck (N := Unit) load0 (RefArg.list [RefArgElem.refImpl refLen])
        ⟨[], false⟩ ⟨false, [], 0, 0, 0⟩
        = (⟨false, [], 0 + 1, 0 + 1, 0 + 1⟩,
           Except.error (PyErr.valueError "max arg is an empty sequence")) :=
  inline_steps_eq_max_timestamp Nat Unit Nat load0
    (RefArg.list [RefArgElem.refImpl refLen]) [refLen] rfl 9 2 [(4, 1)] [] 0 0 0

/-- C2 (code bug, evaluated at the failing input): entering the inline
checking protocol while tracing is already active is NOT a transparent
no-op.  The generator's nested-case `yield` (line 185) has no `return`/`else`
after it, so when the context manager exits, control falls through to lines
187-204: a second collector is created (`collectorsCreated` goes from 1 to
2), `tracing_on` is invoked a second time (`tracingOnCalls` from 1 to 2,
wiping the outer collector's accumulation), and the second `yield` makes
`contextlib` raise `RuntimeError`. -/
theorem nested_check_not_noop :
    withCheck (N := Unit) load0 (RefArg.list [RefArgElem.refImpl refLen])
        ⟨[(7, 1)], false⟩ ⟨true, [(5, 0)], 1, 1, 0⟩
      = (⟨true, [], 2, 2, 0⟩,
         Except.error (PyErr.runtimeError "generator did not stop")) := rfl

/-- C3 (code bug, evaluated at the failing input): the inline checking
protocol wraps the block's `yield` in no `try`/`finally`, so when the block
raises after instrumentation was activated, `tracing_off` (line 206) never
runs: the exception propagates with tracing still active
(`tracing = true`, `tracingOffCalls = 0`) — a collector is left active,
contradicting the scoped-release guarantee. -/
theorem raising_block_leaves_tracing_on :
    withCheck (N := Unit) load0 (RefArg.list [RefArgElem.refImpl refLen])
        ⟨[(7, 2)], true⟩ ⟨false, [], 0, 0, 0⟩
      = (⟨true, [(7, 2)], 1, 1, 0⟩, Except.error PyErr.blockError) := rfl

/-- C4 (counterexample): invoking the Checking Dispatcher
`StudentImplementation.check` on a concrete artifact with an empty list of
references does NOT raise — it returns an empty list of results. -/
theorem check_empty_list_returns_empty :
    stu0.check (CheckArg.list ([] : List (ReferenceImplementation Nat Nat))) none
      = Except.ok (CheckResult.list []) := rfl

/-- C4 (amended): the Checking Dispatcher `StudentImplementation.check`
returns an empty result list for an empty reference list without raising; it
is the inline checking protocol's validation (line 190-191) that raises the
empty-reference-set error (`ValueError`) when its reference argument is an
empty list. -/
theorem empty_reference_list_behavior (V N R : Type) (stu : StudentImplementation V N)
    (g : Option String) (load : String → ReferenceImplementation V R) :
    stu.check (CheckArg.list ([] : List (ReferenceImplementation V R))) g
      = Except.ok (CheckResult.list [])
    ∧ validateRef load (RefArg.list [])
      = Except.error (PyErr.valueError "Cannot check against an empty list of references") :=
  ⟨rfl, rfl⟩

/-- C5: the Checking Dispatcher returns the bare result of a single
invocation for a scalar reference; for a list it returns the list of results
of running each reference independently over the same footprint and group,
preserving order and length (the i-th output comes from the i-th input); any
other shape raises `TypeError` (the `UnsupportedInputKind` error). -/
theorem check_dispatch_shapes (V N R : Type) (stu : StudentImplementation V N)
    (r : ReferenceImplementation V R) (rs : List (ReferenceImplementation V R))
    (g : Option String) (tyname : String) :
    stu.check (CheckArg.ref r) g = Except.ok (CheckResult.single (r.run stu.values g))
    ∧ stu.check (CheckArg.list rs) g
        = Except.ok (CheckResult.list (rs.map (fun ri => ri.run stu.values g)))
    ∧ (rs.map (fun ri => ri.run stu.values g)).length = rs.length
    ∧ (∀ i : Nat, (rs.map (fun ri => ri.run stu.values g))[i]?
        = (rs[i]?).map (fun ri => ri.run stu.values g))
    ∧ stu.check (CheckArg.other (V := V) (R := R) tyname) g
        = Except.error (PyErr.typeError ("check cannot take values of type " ++ tyname)) := by
  refine ⟨rfl, rfl, by simp, fun i => by simp [List.getElem?_map], rfl⟩

/-- C6 (code bug, evaluated at the failing input): the inline checking
protocol rejects a scalar `ReferenceImplementation`.  Nothing in lines
187-195 wraps a scalar reference into a list, so it reaches line 196's
`all(... for r in ref)`, which tries to iterate the (non-iterable) reference
object and raises `TypeError` — before any collector is created or tracing
is activated (the trace state is returned unchanged), but where the spec
says this shape must be accepted. -/
theorem scalar_reference_rejected :
    withCheck (N := Unit) load0 (RefArg.refImpl refLen) ⟨[(7, 1)], false⟩ ⟨false, [], 0, 0, 0⟩
      = (⟨false, [], 0, 0, 0⟩, Except.error (PyErr.typeError "object is not iterable")) := rfl

/-- C7: round-trip — given the external serializer's and transport
encoding's decode-of-encode laws, `load` after `dump` (binary file form) and
`loads` after `dumps` (base-64 string form) both restore the artifact
verbatim (no re-execution recomputes any field), and the restored artifact's
`check` result for any reference and group equals the original's. -/
theorem serialization_roundtrip (V N R E S : Type)
    (dill : Codec (StudentImplementation V N) E) (b64 : Codec E S)
    (hdill : ∀ a, dill.dec (dill.enc a) = some a)
    (hb64 : ∀ e, b64.dec (b64.enc e) = some e)
    (a : StudentImplementation V N) (r : ReferenceImplementation V R) (g : Option String) :
    StudentImplementation.load dill (StudentImplementation.dump dill a) = some a
    ∧ StudentImplementation.loads dill b64 (StudentImplementation.dumps dill b64 a) = some a
    ∧ (StudentImplementation.load dill (StudentImplementation.dump dill a)).map
        (fun b => b.check (CheckArg.ref r) g) = some (a.check (CheckArg.ref r) g)
    ∧ (StudentImplementation.loads dill b64 (StudentImplementation.dumps dill b64 a)).map
        (fun b => b.check (CheckArg.ref r) g) = some (a.check (CheckArg.ref r) g) := by
  have h1 : StudentImplementation.load dill (StudentImplementation.dump dill a) = some a :=
    hdill a
  have h2 : StudentImplementation.loads dill b64 (StudentImplementation.dumps dill b64 a)
      = some a := by
    simp [StudentImplementation.loads, StudentImplementation.dumps, hb64, hdill]
  exact ⟨h1, h2, by rw [h1]; rfl, by rw [h2]; rfl⟩

/-- C7 (witness): the round-trip theorem instantiated at a concrete artifact
and reference with a concrete lawful codec. -/
theorem serialization_roundtrip_witness :
    StudentImplementation.load idCodecStu (StudentImplementation.dump idCodecStu stu0)
      = some stu0
    ∧ StudentImplementation.loads idCodecStu idCodecStu
        (StudentImplementation.dumps idCodecStu idCodecStu stu0) = some stu0
    ∧ (StudentImplementation.load idCodecStu (StudentImplementation.dump idCodecStu stu0)).map
        (fun b => b.check (CheckArg.ref refLen) none)
      = some (stu0.check (CheckArg.ref refLen) none)
    ∧ (StudentImplementation.loads idCodecStu idCodecStu
        (StudentImplementation.dumps idCodecStu idCodecStu stu0)).map
        (fun b => b.check (CheckArg.ref refLen) none)
      = some (stu0.check (CheckArg.ref refLen) none) :=
  serialization_roundtrip Nat Unit Nat (StudentImplementation Nat Unit)
    (StudentImplementation Nat Unit) idCodecStu idCodecStu
    (fun _ => rfl) (fun _ => rfl) stu0 refLen none

/-- C8: `check_plagiarism` synthesizes exactly one reference from the
calling artifact (forwarding the options to the synthesizer) and returns the
peer comparator's output: an ordered collection aligned index-for-index with
the peer artifacts, result i comparing peer i against that synthesized
reference, with the same options forwarded. -/
theorem check_plagiarism_alignment (V N R O : Type)
    (synth : StudentImplementation V N → O → ReferenceImplementation V R)
    (compare : ReferenceImplementation V R → StudentImplementation V N → O → R)
    (self : StudentImplementation V N) (peers : List (StudentImplementation V N))
    (opts : O) :
    self.check_plagiarism synth compare peers opts
      = Except.ok (peers.map (fun p => compare (synth self opts) p opts))
    ∧ (peers.map (fun p => compare (synth self opts) p opts)).length = peers.length
    ∧ ∀ i : Nat, (peers.map (fun p => compare (synth self opts) p opts))[i]?
        = (peers[i]?).map (fun p => compare (synth self opts) p opts) := by
  refine ⟨rfl, by simp, fun i => by simp [List.getElem?_map]⟩

/-- C9: the post-construction operations — checking against any reference
input and serialization to either persisted form — leave the artifact
unchanged (footprint values, step count and source metadata included): each
state-threaded operation returns the receiver exactly as given, and produces
the same output as the pure reading. -/
theorem check_and_serialize_read_only (V N R E S : Type) (stu : StudentImplementation V N)
    (arg : CheckArg V R) (g : Option String)
    (dill : Codec (StudentImplementation V N) E) (b64 : Codec E S) :
    (stu.checkSt arg g).1 = stu
    ∧ (stu.checkSt arg g).1.values = stu.values
    ∧ (stu.checkSt arg g).1.steps = stu.steps
    ∧ (stu.checkSt arg g).1.nb = stu.nb
    ∧ (stu.checkSt arg g).1.nb_path = stu.nb_path
    ∧ (stu.checkSt arg g).2 = stu.check arg g
    ∧ (StudentImplementation.dumpSt dill stu).1 = stu
    ∧ (StudentImplementation.dumpsSt dill b64 stu).1 = stu
    ∧ (StudentImplementation.dumpSt dill stu).2 = StudentImplementation.dump dill stu
    ∧ (StudentImplementation.dumpsSt dill b64 stu).2
        = StudentImplementation.dumps dill b64 stu := by
  cases arg <;> exact ⟨rfl, rfl, rfl, rfl, rfl, rfl, rfl, rfl, rfl, rfl⟩

/-- C10: `from_footprint` stores the given footprint and step count verbatim
with no validation — so an artifact whose step count (5) differs from the
maximum timestamp of its footprint (0) is constructible — and the resulting
artifact carries no source metadata (`nb` and `nb_path` are both `none`). -/
theorem from_footprint_verbatim :
    (∀ (V N : Type) (fp : List (V × Nat)) (k : Nat),
      (StudentImplementation.from_footprint (N := N) fp k).values = fp
      ∧ (StudentImplementation.from_footprint (N := N) fp k).steps = k
      ∧ (StudentImplementation.from_footprint (N := N) fp k).nb = none
      ∧ (StudentImplementation.from_footprint (N := N) fp k).nb_path = none)
    ∧ (StudentImplementation.from_footprint (V := Nat) (N := Unit) [(3, 0)] 5).steps = 5
    ∧ maxTimestamp (StudentImplementation.from_footprint (V := Nat) (N := Unit) [(3, 0)] 5).values
        = Except.ok 0
    ∧ (StudentImplementation.from_footprint (V := Nat) (N := Unit) [(3, 0)] 5).steps ≠ 0 :=
  ⟨fun _ _ _ _ => ⟨rfl, rfl, rfl, rfl⟩, rfl, rfl, by decide⟩

end PyBryt
